import Mathlib

/-!
Shallow embedding of `homework.py` (a Telegram homework-status poller) and
verification of its specification.

Modelling conventions:
* Python exceptions become an `ExcKind` value carried in `Except`.
* Observable side effects (log records, Telegram send attempts, the
  `from_date` query parameter of each HTTP request) are collected in an
  `Effects` record returned alongside each function's result.
* The Telegram transport is a parameter `bot : String → Except ExcKind Unit`
  giving, for each message text, whether `bot.send_message` succeeds or
  raises.
* JSON values and Python dictionaries are the inductive `PyVal`.
-/

set_option autoImplicit false

namespace HomeworkBot

/-- Log severities used by the program. -/
inductive LogLevel where
  | debug
  | warning
  | error
  | critical
deriving DecidableEq, Repr

/-- Kinds of Python exceptions that the embedded code can raise.
`typeError` stands for Python `TypeError`, `keyError` for `KeyError`,
`valueError` for `ValueError`, `attributeError` for `AttributeError`,
`apiRequestError` for the custom `ApiRequestError` from `exceptions.py`,
and `telegramError` for whatever the Telegram client may raise from
`bot.send_message`. -/
inductive ExcKind where
  | typeError
  | keyError
  | valueError
  | attributeError
  | apiRequestError
  | telegramError
deriving DecidableEq, Repr

/-- Models Python `str()` applied to a caught exception instance, as used in
`f'...: {e}'` message formatting.  The concrete rendering is irrelevant to
every property below; only which exception kind occurred matters. -/
def excMsg : ExcKind → String
  | .typeError => "TypeError"
  | .keyError => "KeyError"
  | .valueError => "ValueError"
  | .attributeError => "AttributeError"
  | .apiRequestError => "ApiRequestError"
  | .telegramError => "TelegramError"

/-- Python/JSON values as far as the program inspects them: strings,
integers, `None`, lists and string-keyed dictionaries. -/
inductive PyVal where
  | str (s : String)
  | int (n : Int)
  | none
  | list (xs : List PyVal)
  | dict (entries : List (String × PyVal))

/-- Python `isinstance(v, dict)`. -/
def PyVal.isDict : PyVal → Bool
  | .dict _ => true
  | _ => false

/-- Python `d.get(k)` on a dictionary: `some v` when the key is present,
`none` when absent (Python returns `None`; key absence and a stored `None`
value never need distinguishing below because the program only stores
non-`None` values under the keys it reads).  On a non-dictionary the
program never calls `.get` (it checks `isinstance` first). -/
def PyVal.get? : PyVal → String → Option PyVal
  | .dict es, k => es.lookup k
  | _, _ => Option.none

/-- Python `d[k]` subscription: `KeyError` when the key is absent from a
dictionary, `TypeError` when the value is not subscriptable by a string. -/
def PyVal.getItem : PyVal → String → Except ExcKind PyVal
  | .dict es, k =>
    match es.lookup k with
    | some v => Except.ok v
    | Option.none => Except.error ExcKind.keyError
  | _, _ => Except.error ExcKind.typeError

/-- Models Python `str()` on the values the program interpolates into
f-strings.  Only `.str` values reach this in the verified properties. -/
def py_str : PyVal → String
  | .str s => s
  | .int n => toString n
  | .none => "None"
  | .list _ => "<list>"
  | .dict _ => "<dict>"

/-- The observable side effects of a call: log records, the texts of all
`bot.send_message` attempts, and the `from_date` value of each HTTP
request issued. -/
structure Effects where
  logs : List (LogLevel × String)
  notifyAttempts : List String
  fromDates : List Int

/-- No side effects. -/
def Effects.empty : Effects := ⟨[], [], []⟩

/-- Sequential composition of side effects. -/
def Effects.append (a b : Effects) : Effects :=
  ⟨a.logs ++ b.logs, a.notifyAttempts ++ b.notifyAttempts,
   a.fromDates ++ b.fromDates⟩

instance : Append Effects := ⟨Effects.append⟩

/-- The three module-level secrets read from the environment:
`PRACTICUM_TOKEN`, `TELEGRAM_TOKEN`, `TELEGRAM_CHAT_ID`.  `os.getenv`
yields `None` (here `Option.none`) when the variable is unset, and the
string value — possibly empty — when it is set. -/
structure Config where
  PRACTICUM_TOKEN : Option String
  TELEGRAM_TOKEN : Option String
  TELEGRAM_CHAT_ID : Option String

/-- Embeds `check_tokens()`: returns `False` (logging at critical severity) when
any of the three secrets is `None`, and `True` otherwise. -/
def check_tokens (cfg : Config) : Bool × Effects :=
  if cfg.PRACTICUM_TOKEN = Option.none
      ∨ cfg.TELEGRAM_TOKEN = Option.none
      ∨ cfg.TELEGRAM_CHAT_ID = Option.none then
    (false,
     ⟨[(LogLevel.critical, "Отсутствие обязательных переменных окружения!")],
      [], []⟩)
  else
    (true, Effects.empty)

/-- Embeds `send_message(bot, message)`: calls `bot.send_message` (one notify
attempt), logs success at debug severity; any exception from the client is
caught and logged at error severity.  The first component is the
exception, if any, escaping `send_message` itself. -/
def send_message (bot : String → Except ExcKind Unit) (message : String) :
    Except ExcKind Unit × Effects :=
  match bot message with
  | Except.ok _ =>
    (Except.ok (),
     ⟨[(LogLevel.debug, "Удачная отправка сообщения в Telegram: " ++ message)],
      [message], []⟩)
  | Except.error e =>
    (Except.ok (),
     ⟨[(LogLevel.error, "Ошибка при отправке сообщения в Telegram: " ++ excMsg e)],
      [message], []⟩)

/-- Embeds `log_and_send_message(message)`: logs the message at error severity and
sends it through a freshly constructed Telegram bot. -/
def log_and_send_message (bot : String → Except ExcKind Unit)
    (message : String) : Effects :=
  Effects.append ⟨[(LogLevel.error, message)], [], []⟩
    (send_message bot message).2

/-- The verdict table `HOMEWORK_VERDICTS`. -/
def HOMEWORK_VERDICTS : List (String × String) :=
  [("approved", "Работа проверена: ревьюеру всё понравилось. Ура!"),
   ("reviewing", "Работа взята на проверку ревьюером."),
   ("rejected", "Работа проверена: у ревьюера есть замечания.")]

/-- The outcome of the `requests.get` call in `get_api_answer`: either the
call raises `requests.RequestException`, or it returns a response with a
status code and a JSON body (the body as already parsed by
`response.json()`). -/
inductive HttpOutcome where
  | raises
  | returns (status : Nat) (json : PyVal)

/-- Embeds `get_api_answer(current_timestamp)`.

Faithful to the source, including its flaw: the handler is written
`except requests.RequestException():` — an exception *instance* where a
class is required — so when `requests.get` raises, matching the handler
itself raises `TypeError`; the handler body (notification and
`ApiRequestError`) is dead code and the escaping exception is `TypeError`.

On a non-200 status the function logs at error severity and raises
`ApiRequestError` without any notification.  On a 200 status the
`if not response:` warning branch is unreachable (a 200 response is
truthy, i.e. its status code is below 400), and the parsed body is
returned. -/
def get_api_answer (bot : String → Except ExcKind Unit)
    (http : HttpOutcome) (current_timestamp : Int) :
    Except ExcKind PyVal × Effects :=
  let requestEff : Effects := ⟨[], [], [current_timestamp]⟩
  match http with
  | HttpOutcome.raises => (Except.error ExcKind.typeError, requestEff)
  | HttpOutcome.returns status json =>
    if status ≠ 200 then
      (Except.error ExcKind.apiRequestError,
       Effects.append requestEff
         ⟨[(LogLevel.error, "Ошибка при запросе к API: " ++ toString status)],
          [], []⟩)
    else if 400 ≤ status then
      (Except.ok json,
       Effects.append requestEff
         ⟨[(LogLevel.warning, "Пустой ответ API")], [], []⟩)
    else
      (Except.ok json, requestEff)

/-- Embeds `check_response(response)`: raises `TypeError` (with log + notification)
when the response is not a dictionary or its `homeworks` key does not hold
a list; logs a warning when the list is empty; returns the list. -/
def check_response (bot : String → Except ExcKind Unit) (response : PyVal) :
    Except ExcKind (List PyVal) × Effects :=
  match response with
  | PyVal.dict es =>
    match es.lookup "homeworks" with
    | some (PyVal.list hs) =>
      (Except.ok hs,
       if hs.isEmpty then
         ⟨[(LogLevel.warning, "Список homeworks пуст")], [], []⟩
       else Effects.empty)
    | _ =>
      (Except.error ExcKind.typeError,
       log_and_send_message bot "Список homeworks отсутствует в ответе")
  | _ =>
    (Except.error ExcKind.typeError,
     log_and_send_message bot "Получен список вместо ожидаемого словаря")

/-- Models Python `HOMEWORK_VERDICTS.get(homework_status)`, where the
argument is `homework.get('status')` (so `Option.none` stands for an
absent key, which Python turns into the `None` key).  A list- or
dict-valued status is unhashable, so `dict.get` itself raises
`TypeError: unhashable type`.  Every other value is hashable: a string
key is looked up in the table, and `None` or an integer key is simply not
present, giving `None`. -/
def verdict_get : Option PyVal → Except ExcKind (Option String)
  | some (PyVal.list _) => Except.error ExcKind.typeError
  | some (PyVal.dict _) => Except.error ExcKind.typeError
  | some (PyVal.str s) => Except.ok (HOMEWORK_VERDICTS.lookup s)
  | some (PyVal.int _) => Except.ok Option.none
  | some PyVal.none => Except.ok Option.none
  | Option.none => Except.ok Option.none

/-- Embeds `parse_status(homework)` on a homework record (a dictionary, given by
its entries): raises `KeyError` (with log + notification) when
`homework_name` is absent; then evaluates
`HOMEWORK_VERDICTS.get(homework.get('status'))`, which raises `TypeError`
(without any log or notification) when the status value is unhashable
(a list or a dict); raises `ValueError` (with log + notification) when
the lookup yields `None` — status absent, `None`, an integer, or a string
outside the table; otherwise returns the formatted message.  (In the
source the unknown-status log message loses the `{homework_status}.`
tail: the second f-string literal is a separate discarded expression
statement, so the message ends at `неизвестен:`.) -/
def parse_status (bot : String → Except ExcKind Unit)
    (homework : List (String × PyVal)) : Except ExcKind String × Effects :=
  match homework.lookup "homework_name" with
  | Option.none =>
    (Except.error ExcKind.keyError,
     log_and_send_message bot "В ответе API домашки нет ключа \"homework_name\"")
  | some nameVal =>
    match verdict_get (homework.lookup "status") with
    | Except.error e => (Except.error e, Effects.empty)
    | Except.ok Option.none =>
      (Except.error ExcKind.valueError,
       log_and_send_message bot
         ("Статус проверки для работы \"" ++ py_str nameVal ++ "\" неизвестен:"))
    | Except.ok (some v) =>
      (Except.ok
         ("Изменился статус проверки работы \"" ++ py_str nameVal ++ "\". " ++ v),
       Effects.empty)

/-- The environment of one iteration of the polling loop: what the HTTP
call does this time, and what the Telegram client does for each message
text. -/
structure IterEnv where
  http : HttpOutcome
  bot : String → Except ExcKind Unit

/-- Occurrence of `needle` as a contiguous run inside a character list. -/
def charsContain (needle : List Char) : List Char → Bool
  | [] => needle.isEmpty
  | c :: rest => needle.isPrefixOf (c :: rest) || charsContain needle rest

/-- Python substring membership `needle in hay` on strings. -/
def strContains (hay needle : String) : Bool :=
  charsContain needle.toList hay.toList

/-- Helper: `parse_status` applied to one element of the `homeworks`
list, starting from the source's `'homework_name' not in homework`
membership test.  On a dictionary that test is key membership and
`parse_status` runs.  On a string it is a substring test: when
`"homework_name"` does not occur, the missing-name branch runs (log +
notification + `KeyError`); when it does occur, the subsequent
`homework.get('homework_name')` raises `AttributeError` (strings have no
`get`), with no log or notification.  A list behaves the same way with
element membership (Python `==` makes only string elements comparable to
the key).  On an integer or `None` the membership test itself raises
`TypeError` (the value is not iterable). -/
def parse_record (bot : String → Except ExcKind Unit) (hw : PyVal) :
    Except ExcKind String × Effects :=
  match hw with
  | PyVal.dict es => parse_status bot es
  | PyVal.str s =>
    if strContains s "homework_name" then
      (Except.error ExcKind.attributeError, Effects.empty)
    else
      (Except.error ExcKind.keyError,
       log_and_send_message bot "В ответе API домашки нет ключа \"homework_name\"")
  | PyVal.list xs =>
    if xs.any (fun v => match v with
        | PyVal.str t => t == "homework_name"
        | _ => false) then
      (Except.error ExcKind.attributeError, Effects.empty)
    else
      (Except.error ExcKind.keyError,
       log_and_send_message bot "В ответе API домашки нет ключа \"homework_name\"")
  | _ => (Except.error ExcKind.typeError, Effects.empty)

/-- The `for hw in homeworks:` body of `main`: `parse_status` each record
and `send_message` the result. -/
def notify_homeworks (bot : String → Except ExcKind Unit)
    (hws : List PyVal) : Except ExcKind Unit × Effects :=
  match hws with
  | [] => (Except.ok (), Effects.empty)
  | hw :: rest =>
    match parse_record bot hw with
    | (Except.error e, eff) => (Except.error e, eff)
    | (Except.ok message, eff) =>
      let sendEff := (send_message bot message).2
      let tail := notify_homeworks bot rest
      (tail.1, Effects.append eff (Effects.append sendEff tail.2))

/-- The `try:` block of one iteration of `main`:
`get_api_answer`, `check_response`, `response['homeworks']`, then the
per-record notification loop.  The first component is the exception, if
any, reaching the iteration's `except Exception` handler. -/
def main_try_body (env : IterEnv) (current_timestamp : Int) :
    Except ExcKind Unit × Effects :=
  match get_api_answer env.bot env.http current_timestamp with
  | (Except.error e, eff1) => (Except.error e, eff1)
  | (Except.ok response, eff1) =>
    match check_response env.bot response with
    | (Except.error e, eff2) => (Except.error e, Effects.append eff1 eff2)
    | (Except.ok _, eff2) =>
      match response.getItem "homeworks" with
      | Except.error e => (Except.error e, Effects.append eff1 eff2)
      | Except.ok (PyVal.list hs) =>
        let loop := notify_homeworks env.bot hs
        (loop.1, Effects.append eff1 (Effects.append eff2 loop.2))
      | Except.ok _ =>
        (Except.error ExcKind.typeError, Effects.append eff1 eff2)

/-- One iteration of the `while True:` loop of `main`: the `try:` block,
whose exception — whatever it is — is caught by `except Exception as
error`, formatted, sent via `send_message` and logged, after which the
iteration ends normally (`time.sleep` has no observable effect here).
The first component is the exception, if any, escaping the iteration. -/
def main_iteration (env : IterEnv) (current_timestamp : Int) :
    Except ExcKind Unit × Effects :=
  match main_try_body env current_timestamp with
  | (Except.ok _, eff) => (Except.ok (), eff)
  | (Except.error e, eff) =>
    let message := "Сбой в работе программы: " ++ excMsg e
    (Except.ok (),
     Effects.append eff
       (Effects.append (send_message env.bot message).2
         ⟨[(LogLevel.error, message)], [], []⟩))

/-- The `while True:` loop of `main`, run for as many iterations as the
environment trace provides.  `current_timestamp` is never reassigned in
the source, so the same value is passed to every iteration.  An exception
escaping an iteration would abort the loop (none can, see
`main_iteration`). -/
def main_loop (envs : List IterEnv) (current_timestamp : Int) :
    Except ExcKind Unit × Effects :=
  match envs with
  | [] => (Except.ok (), Effects.empty)
  | env :: rest =>
    match main_iteration env current_timestamp with
    | (Except.ok _, eff) =>
      let tail := main_loop rest current_timestamp
      (tail.1, Effects.append eff tail.2)
    | (Except.error e, eff) => (Except.error e, eff)

/-- Embeds `main()`: when `check_tokens()` is true, set
`current_timestamp = int(time.time())` (the `startTime` parameter) and run
the polling loop; otherwise the `else` branch merely evaluates
`SystemExit()` — constructing the exception without raising it — so `main`
returns normally without entering the loop and without terminating the
process.  The first component is the exception, if any, escaping `main`. -/
def main (cfg : Config) (startTime : Int) (envs : List IterEnv) :
    Except ExcKind Unit × Effects :=
  match check_tokens cfg with
  | (true, eff) =>
    let run := main_loop envs startTime
    (run.1, Effects.append eff run.2)
  | (false, eff) => (Except.ok (), eff)

/-- Observer for stating properties: the record's `status` value is a
string with an entry in the verdict table. -/
def statusKnown (homework : List (String × PyVal)) : Bool :=
  match homework.lookup "status" with
  | some (PyVal.str s) => (HOMEWORK_VERDICTS.lookup s).isSome
  | _ => false

/-- Observer for stating properties: the record's `status` value (Python
`None` when the key is absent) is hashable, i.e. usable as a `dict.get`
key.  Lists and dicts are the unhashable cases. -/
def statusHashable (homework : List (String × PyVal)) : Bool :=
  match homework.lookup "status" with
  | some (PyVal.list _) => false
  | some (PyVal.dict _) => false
  | _ => true

/-- A Telegram client that always delivers, for concrete instantiations. -/
def okBot : String → Except ExcKind Unit := fun _ => Except.ok ()

theorem Effects.append_logs (a b : Effects) :
    (Effects.append a b).logs = a.logs ++ b.logs := rfl

theorem Effects.append_notifyAttempts (a b : Effects) :
    (Effects.append a b).notifyAttempts = a.notifyAttempts ++ b.notifyAttempts := rfl

theorem Effects.append_fromDates (a b : Effects) :
    (Effects.append a b).fromDates = a.fromDates ++ b.fromDates := rfl

theorem send_message_ok (bot : String → Except ExcKind Unit) (msg : String) :
    (send_message bot msg).1 = Except.ok () := by
  unfold send_message
  cases bot msg <;> rfl

theorem send_message_attempts (bot : String → Except ExcKind Unit) (msg : String) :
    (send_message bot msg).2.notifyAttempts = [msg] := by
  unfold send_message
  cases bot msg <;> rfl

theorem send_message_fromDates (bot : String → Except ExcKind Unit) (msg : String) :
    (send_message bot msg).2.fromDates = [] := by
  unfold send_message
  cases bot msg <;> rfl

theorem log_and_send_message_fromDates (bot : String → Except ExcKind Unit)
    (msg : String) : (log_and_send_message bot msg).fromDates = [] := by
  unfold log_and_send_message
  rw [Effects.append_fromDates, send_message_fromDates]
  rfl

theorem get_api_answer_fromDates (bot : String → Except ExcKind Unit)
    (http : HttpOutcome) (ts : Int) :
    (get_api_answer bot http ts).2.fromDates = [ts] := by
  unfold get_api_answer
  cases http with
  | raises => rfl
  | returns status json =>
    by_cases h : status ≠ 200
    · simp [h, Effects.append_fromDates]
    · simp [h, Effects.append_fromDates]
      split <;> rfl

theorem check_response_fromDates (bot : String → Except ExcKind Unit)
    (r : PyVal) : (check_response bot r).2.fromDates = [] := by
  unfold check_response
  cases r with
  | dict es =>
    rcases h : es.lookup "homeworks" with _ | v
    · simp [h, log_and_send_message_fromDates]
    · cases v <;>
        simp [h, log_and_send_message_fromDates, apply_ite Effects.fromDates,
          Effects.empty]
  | str s => simp [log_and_send_message_fromDates]
  | int n => simp [log_and_send_message_fromDates]
  | none => simp [log_and_send_message_fromDates]
  | list xs => simp [log_and_send_message_fromDates]

theorem parse_status_fromDates (bot : String → Except ExcKind Unit)
    (hw : List (String × PyVal)) :
    (parse_status bot hw).2.fromDates = [] := by
  unfold parse_status
  rcases h : hw.lookup "homework_name" with _ | v
  · simp [h, log_and_send_message_fromDates]
  · simp [h]
    split <;> simp [log_and_send_message_fromDates, Effects.empty]

theorem parse_record_fromDates (bot : String → Except ExcKind Unit)
    (hw : PyVal) : (parse_record bot hw).2.fromDates = [] := by
  cases hw with
  | dict es => simp [parse_record, parse_status_fromDates]
  | str s =>
    simp only [parse_record]
    split <;> simp [log_and_send_message_fromDates, Effects.empty]
  | list xs =>
    simp only [parse_record]
    split <;> simp [log_and_send_message_fromDates, Effects.empty]
  | int n => simp [parse_record, Effects.empty]
  | none => simp [parse_record, Effects.empty]

theorem notify_homeworks_fromDates (bot : String → Except ExcKind Unit)
    (hws : List PyVal) : (notify_homeworks bot hws).2.fromDates = [] := by
  induction hws with
  | nil => rfl
  | cons hw rest ih =>
    unfold notify_homeworks
    rcases hp : parse_record bot hw with ⟨r, eff⟩
    have he : eff.fromDates = [] := by
      have h0 := parse_record_fromDates bot hw
      rw [hp] at h0
      exact h0
    cases r with
    | error e => simp [he]
    | ok message =>
      simp [Effects.append_fromDates, he, send_message_fromDates, ih]

theorem main_try_body_fromDates (env : IterEnv) (ts : Int) :
    (main_try_body env ts).2.fromDates = [ts] := by
  unfold main_try_body
  rcases h1 : get_api_answer env.bot env.http ts with ⟨r1, eff1⟩
  have he1 : eff1.fromDates = [ts] := by
    have h0 := get_api_answer_fromDates env.bot env.http ts
    rw [h1] at h0
    exact h0
  cases r1 with
  | error e => simpa using he1
  | ok response =>
    rcases h2 : check_response env.bot response with ⟨r2, eff2⟩
    have he2 : eff2.fromDates = [] := by
      have h0 := check_response_fromDates env.bot response
      rw [h2] at h0
      exact h0
    cases r2 with
    | error e => simp [h1, h2, Effects.append_fromDates, he1, he2]
    | ok hs0 =>
      rcases h3 : response.getItem "homeworks" with e | v
      · simp [h1, h2, h3, Effects.append_fromDates, he1, he2]
      · cases v <;>
          simp [h1, h2, h3, Effects.append_fromDates, he1, he2,
            notify_homeworks_fromDates]

theorem main_iteration_ok (env : IterEnv) (ts : Int) :
    (main_iteration env ts).1 = Except.ok () := by
  unfold main_iteration
  rcases h : main_try_body env ts with ⟨r, eff⟩
  cases r <;> rfl

theorem main_iteration_fromDates (env : IterEnv) (ts : Int) :
    (main_iteration env ts).2.fromDates = [ts] := by
  unfold main_iteration
  rcases h : main_try_body env ts with ⟨r, eff⟩
  have he : eff.fromDates = [ts] := by
    have h0 := main_try_body_fromDates env ts
    rw [h] at h0
    exact h0
  cases r with
  | ok u => exact he
  | error e =>
    simp [Effects.append_fromDates, he, send_message_fromDates]

theorem main_loop_ok (envs : List IterEnv) (ts : Int) :
    (main_loop envs ts).1 = Except.ok () := by
  induction envs with
  | nil => rfl
  | cons env rest ih =>
    unfold main_loop
    rcases h : main_iteration env ts with ⟨r, eff⟩
    have h0 := main_iteration_ok env ts
    rw [h] at h0
    cases r with
    | ok u => simpa using ih
    | error e => exact absurd h0 (by simp)

theorem main_loop_cons (env : IterEnv) (envs : List IterEnv) (ts : Int) :
    main_loop (env :: envs) ts
      = ((main_loop envs ts).1,
         Effects.append (main_iteration env ts).2 (main_loop envs ts).2) := by
  rcases h : main_iteration env ts with ⟨r, eff⟩
  have h0 := main_iteration_ok env ts
  rw [h] at h0
  cases r with
  | ok u => simp [main_loop, h]
  | error e => exact absurd h0 (by simp)

theorem main_loop_fromDates (envs : List IterEnv) (ts : Int) :
    (main_loop envs ts).2.fromDates = List.replicate envs.length ts := by
  induction envs with
  | nil => rfl
  | cons env rest ih =>
    rw [main_loop_cons]
    simp [Effects.append_fromDates, main_iteration_fromDates, ih,
      List.replicate_succ]

theorem check_tokens_true_eq (cfg : Config)
    (h : (check_tokens cfg).1 = true) :
    check_tokens cfg = (true, Effects.empty) := by
  unfold check_tokens at *
  split at h <;> simp_all

theorem check_tokens_false_eq (cfg : Config)
    (h : (check_tokens cfg).1 = false) :
    check_tokens cfg
      = (false,
         ⟨[(LogLevel.critical, "Отсутствие обязательных переменных окружения!")],
          [], []⟩) := by
  unfold check_tokens at *
  split at h <;> simp_all

/-- Claim C1: `check_tokens` returns true exactly when all three
configuration secrets (API token, bot token, chat id) are present, and
false when any one of them is absent. -/
theorem check_tokens_spec (cfg : Config) :
    (check_tokens cfg).1
      = (cfg.PRACTICUM_TOKEN.isSome && cfg.TELEGRAM_TOKEN.isSome
          && cfg.TELEGRAM_CHAT_ID.isSome) := by
  rcases cfg with ⟨p, t, c⟩
  cases p <;> cases t <;> cases c <;> simp [check_tokens]

/-- Claim C7: `send_message` never raises: whatever the Telegram client
does with the message — success or any exception — the failure is caught
inside `send_message` and no exception reaches the caller. -/
theorem send_message_never_raises (bot : String → Except ExcKind Unit)
    (message : String) :
    (send_message bot message).1 = Except.ok () := by
  unfold send_message
  cases bot message <;> rfl

/-- Claim C10: `check_tokens` distinguishes only `None` from non-`None`,
so with all three environment variables set to empty strings it returns
true and `main` enters the polling loop (a fetch is issued). -/
theorem empty_string_secrets_enter_loop :
    (check_tokens ⟨some "", some "", some ""⟩).1 = true ∧
    (main ⟨some "", some "", some ""⟩ 0
        [⟨HttpOutcome.raises, okBot⟩]).2.fromDates = [0] :=
  ⟨rfl, rfl⟩

/-- Claim C4: `check_response` returns the `homeworks` list unchanged when
the response is a dictionary whose `homeworks` key holds a list, and
raises the schema error (realised in the source as `TypeError`) when the
response is not a dictionary, or when `homeworks` is missing or not a
list. -/
theorem check_response_spec (bot : String → Except ExcKind Unit)
    (response : PyVal) :
    (∀ hs, response.get? "homeworks" = some (PyVal.list hs) →
        (check_response bot response).1 = Except.ok hs) ∧
    (response.isDict = false →
        (check_response bot response).1 = Except.error ExcKind.typeError) ∧
    (response.isDict = true →
        (∀ hs, ¬ response.get? "homeworks" = some (PyVal.list hs)) →
        (check_response bot response).1 = Except.error ExcKind.typeError) := by
  refine ⟨?_, ?_, ?_⟩
  · intro hs hlook
    cases response with
    | dict es =>
      have h : es.lookup "homeworks" = some (PyVal.list hs) := hlook
      simp [check_response, h]
    | str s => exact absurd hlook (by simp [PyVal.get?])
    | int n => exact absurd hlook (by simp [PyVal.get?])
    | none => exact absurd hlook (by simp [PyVal.get?])
    | list xs => exact absurd hlook (by simp [PyVal.get?])
  · intro hdict
    cases response with
    | dict es => exact absurd hdict (by simp [PyVal.isDict])
    | str s => rfl
    | int n => rfl
    | none => rfl
    | list xs => rfl
  · intro hdict hnolist
    cases response with
    | dict es =>
      rcases h : es.lookup "homeworks" with _ | v
      · simp [check_response, h]
      · cases v with
        | list hs => exact absurd (show PyVal.get? (PyVal.dict es) "homeworks"
            = some (PyVal.list hs) from h) (hnolist hs)
        | str s => simp [check_response, h]
        | int n => simp [check_response, h]
        | none => simp [check_response, h]
        | dict es2 => simp [check_response, h]
    | str s => exact absurd hdict (by simp [PyVal.isDict])
    | int n => exact absurd hdict (by simp [PyVal.isDict])
    | none => exact absurd hdict (by simp [PyVal.isDict])
    | list xs => exact absurd hdict (by simp [PyVal.isDict])

/-- Witness for C4 at concrete inputs: a well-formed response returns its
list, a list response and a dictionary with a non-list `homeworks` raise
`TypeError`. -/
theorem check_response_spec_witness :
    (check_response okBot
        (PyVal.dict [("homeworks", PyVal.list [PyVal.str "a"])])).1
      = Except.ok [PyVal.str "a"] ∧
    (check_response okBot (PyVal.list [])).1
      = Except.error ExcKind.typeError ∧
    (check_response okBot (PyVal.dict [("homeworks", PyVal.int 1)])).1
      = Except.error ExcKind.typeError :=
  ⟨(check_response_spec okBot
      (PyVal.dict [("homeworks", PyVal.list [PyVal.str "a"])])).1
      [PyVal.str "a"] rfl,
   (check_response_spec okBot (PyVal.list [])).2.1 rfl,
   (check_response_spec okBot (PyVal.dict [("homeworks", PyVal.int 1)])).2.2
     rfl (by intro hs h; simp [PyVal.get?, List.lookup] at h)⟩

/-- Claim C5: for every record whose `homework_name` is a string and whose
`status` is a string with an entry in `HOMEWORK_VERDICTS`, `parse_status`
returns the fixed-format message combining the name and the verdict;
instantiated at `{"homework_name": "X", "status": "approved"}` by the
witness below. -/
theorem parse_status_success (bot : String → Except ExcKind Unit)
    (hw : List (String × PyVal)) (name status verdict : String)
    (h1 : hw.lookup "homework_name" = some (PyVal.str name))
    (h2 : hw.lookup "status" = some (PyVal.str status))
    (h3 : HOMEWORK_VERDICTS.lookup status = some verdict) :
    (parse_status bot hw).1
      = Except.ok ("Изменился статус проверки работы \"" ++ name
          ++ "\". " ++ verdict) := by
  simp [parse_status, verdict_get, h1, h2, h3, py_str]

/-- Witness for C5: the approved record named `X` yields exactly the
claimed sentence. -/
theorem parse_status_success_witness :
    (parse_status okBot
        [("homework_name", PyVal.str "X"), ("status", PyVal.str "approved")]).1
      = Except.ok "Изменился статус проверки работы \"X\". Работа проверена: ревьюеру всё понравилось. Ура!" :=
  parse_status_success okBot
    [("homework_name", PyVal.str "X"), ("status", PyVal.str "approved")]
    "X" "approved" "Работа проверена: ревьюеру всё понравилось. Ура!"
    rfl rfl rfl

/-- Counterexample to claim C6 as stated: at the record
`{"homework_name": "X", "status": []}` the status is not present in the
verdict table, yet `parse_status` does not fail with the unknown-status
error (`ValueError`): the list-valued status is an unhashable `dict.get`
key, so a `TypeError` escapes instead, and no notification is sent. -/
theorem parse_status_claim_counterexample :
    ¬ (parse_status okBot
        [("homework_name", PyVal.str "X"), ("status", PyVal.list [])]).1
        = Except.error ExcKind.valueError ∧
    (parse_status okBot
        [("homework_name", PyVal.str "X"), ("status", PyVal.list [])]).1
      = Except.error ExcKind.typeError ∧
    (parse_status okBot
        [("homework_name", PyVal.str "X"),
         ("status", PyVal.list [])]).2.notifyAttempts = [] :=
  ⟨fun h => ExcKind.noConfusion (Except.error.inj h), rfl, rfl⟩

/-- Claim C6, as amended: `parse_status` fails with the missing-field
error (realised as `KeyError`) when `homework_name` is absent; with the
name present it fails with the unknown-status error (realised as
`ValueError`) when the status is hashable but has no verdict-table entry
— absent, `None`, an integer, or a string outside
`{approved, reviewing, rejected}` — while a list- or dict-valued status
is unhashable, so `HOMEWORK_VERDICTS.get` itself raises `TypeError`,
without the unknown-status log or notification. -/
theorem parse_status_failure (bot : String → Except ExcKind Unit)
    (hw : List (String × PyVal)) :
    (hw.lookup "homework_name" = Option.none →
        (parse_status bot hw).1 = Except.error ExcKind.keyError) ∧
    ((hw.lookup "homework_name").isSome = true →
        statusHashable hw = true → statusKnown hw = false →
        (parse_status bot hw).1 = Except.error ExcKind.valueError) ∧
    ((hw.lookup "homework_name").isSome = true →
        statusHashable hw = false →
        (parse_status bot hw).1 = Except.error ExcKind.typeError ∧
        (parse_status bot hw).2 = Effects.empty) := by
  refine ⟨?_, ?_, ?_⟩
  · intro h
    simp [parse_status, h]
  · intro hname hhash hstat
    rcases h : hw.lookup "homework_name" with _ | v
    · rw [h] at hname
      exact absurd hname (by simp)
    · unfold statusHashable at hhash
      unfold statusKnown at hstat
      rcases h2 : hw.lookup "status" with _ | sv
      · simp [parse_status, verdict_get, h, h2]
      · cases sv with
        | str s =>
          rw [h2] at hstat
          rcases h3 : HOMEWORK_VERDICTS.lookup s with _ | w
          · simp [parse_status, verdict_get, h, h2, h3]
          · simp [h3] at hstat
        | int n => simp [parse_status, verdict_get, h, h2]
        | none => simp [parse_status, verdict_get, h, h2]
        | list xs =>
          rw [h2] at hhash
          simp at hhash
        | dict es =>
          rw [h2] at hhash
          simp at hhash
  · intro hname hhash
    rcases h : hw.lookup "homework_name" with _ | v
    · rw [h] at hname
      exact absurd hname (by simp)
    · unfold statusHashable at hhash
      rcases h2 : hw.lookup "status" with _ | sv
      · rw [h2] at hhash
        simp at hhash
      · cases sv with
        | str s =>
          rw [h2] at hhash
          simp at hhash
        | int n =>
          rw [h2] at hhash
          simp at hhash
        | none =>
          rw [h2] at hhash
          simp at hhash
        | list xs =>
          constructor <;> simp [parse_status, verdict_get, h, h2]
        | dict es =>
          constructor <;> simp [parse_status, verdict_get, h, h2]

/-- Witness for the amended C6: a record without a name raises `KeyError`;
a bogus string status and a missing status raise `ValueError`; a
dict-valued status raises `TypeError`. -/
theorem parse_status_failure_witness :
    (parse_status okBot [("status", PyVal.str "approved")]).1
      = Except.error ExcKind.keyError ∧
    (parse_status okBot
        [("homework_name", PyVal.str "X"), ("status", PyVal.str "bogus")]).1
      = Except.error ExcKind.valueError ∧
    (parse_status okBot [("homework_name", PyVal.str "X")]).1
      = Except.error ExcKind.valueError ∧
    (parse_status okBot
        [("homework_name", PyVal.str "Y"), ("status", PyVal.dict [])]).1
      = Except.error ExcKind.typeError :=
  ⟨(parse_status_failure okBot [("status", PyVal.str "approved")]).1 rfl,
   (parse_status_failure okBot
      [("homework_name", PyVal.str "X"), ("status", PyVal.str "bogus")]).2.1
      rfl rfl rfl,
   (parse_status_failure okBot [("homework_name", PyVal.str "X")]).2.1
      rfl rfl rfl,
   ((parse_status_failure okBot
      [("homework_name", PyVal.str "Y"), ("status", PyVal.dict [])]).2.2
      rfl rfl).1⟩

/-- Counterexample to claim C2 as stated: when the transport call raises,
`get_api_answer` does not fail with `ApiRequestError` (the `except`
clause names an exception instance instead of the class, so a `TypeError`
escapes) and no notification is attempted; and on a non-200 status (here
500) no notification is attempted either — the error is only logged. -/
theorem get_api_answer_claim_counterexample :
    ¬ (get_api_answer okBot HttpOutcome.raises 0).1
        = Except.error ExcKind.apiRequestError ∧
    (get_api_answer okBot HttpOutcome.raises 0).2.notifyAttempts = [] ∧
    (get_api_answer okBot (HttpOutcome.returns 500 PyVal.none) 0).2.notifyAttempts
      = [] :=
  ⟨fun h => ExcKind.noConfusion (Except.error.inj h), rfl, rfl⟩

/-- Claim C2 as amended: `get_api_answer` fails with `ApiRequestError`
(logging the status, without notifying) when the response status code is
not 200; when the transport call raises a network-level exception, the
malformed `except requests.RequestException():` clause makes a
`TypeError` escape instead, again without any notification. -/
theorem get_api_answer_error_behavior (bot : String → Except ExcKind Unit)
    (http : HttpOutcome) (ts : Int) :
    (http = HttpOutcome.raises →
        (get_api_answer bot http ts).1 = Except.error ExcKind.typeError ∧
        (get_api_answer bot http ts).2.notifyAttempts = []) ∧
    (∀ status json, http = HttpOutcome.returns status json → status ≠ 200 →
        (get_api_answer bot http ts).1 = Except.error ExcKind.apiRequestError ∧
        (get_api_answer bot http ts).2.notifyAttempts = []) := by
  constructor
  · intro h
    subst h
    exact ⟨rfl, rfl⟩
  · intro status json h hs
    subst h
    constructor
    · simp [get_api_answer, hs]
    · simp [get_api_answer, hs, Effects.append_notifyAttempts]

/-- Witness for the amended C2 at concrete inputs: a raising transport and
a 500 response. -/
theorem get_api_answer_error_behavior_witness :
    ((get_api_answer okBot HttpOutcome.raises 7).1
        = Except.error ExcKind.typeError ∧
      (get_api_answer okBot HttpOutcome.raises 7).2.notifyAttempts = []) ∧
    ((get_api_answer okBot (HttpOutcome.returns 500 PyVal.none) 7).1
        = Except.error ExcKind.apiRequestError ∧
      (get_api_answer okBot
          (HttpOutcome.returns 500 PyVal.none) 7).2.notifyAttempts = []) :=
  ⟨(get_api_answer_error_behavior okBot HttpOutcome.raises 7).1 rfl,
   (get_api_answer_error_behavior okBot
      (HttpOutcome.returns 500 PyVal.none) 7).2 500 PyVal.none rfl
      (by decide)⟩

/-- Claim C3: a network failure during fetch results in exactly one
notification attempt within that iteration (the orchestrator handler's
send — the fetch-path notification is dead code), the iteration raises
nothing, and the loop continues: the trace of a loop starting with such an
iteration is that iteration's effects followed by the remaining loop, with
no exception escaping. -/
theorem network_failure_one_notification (env : IterEnv) (ts : Int)
    (envs : List IterEnv) (h : env.http = HttpOutcome.raises) :
    (main_iteration env ts).2.notifyAttempts.length = 1 ∧
    (main_loop (env :: envs) ts).1 = Except.ok () ∧
    (main_loop (env :: envs) ts).2
      = Effects.append (main_iteration env ts).2 (main_loop envs ts).2 := by
  refine ⟨?_, main_loop_ok (env :: envs) ts, ?_⟩
  · have hbody : main_try_body env ts
        = (Except.error ExcKind.typeError, ⟨[], [], [ts]⟩) := by
      unfold main_try_body get_api_answer
      rw [h]
    rw [main_iteration, hbody]
    simp [Effects.append_notifyAttempts, send_message_attempts]
  · rw [main_loop_cons]

/-- Witness for C3: one raising iteration followed by an empty trace. -/
theorem network_failure_one_notification_witness :
    (main_iteration ⟨HttpOutcome.raises, okBot⟩ 5).2.notifyAttempts.length = 1 ∧
    (main_loop [⟨HttpOutcome.raises, okBot⟩] 5).1 = Except.ok () ∧
    (main_loop [⟨HttpOutcome.raises, okBot⟩] 5).2
      = Effects.append (main_iteration ⟨HttpOutcome.raises, okBot⟩ 5).2
          (main_loop [] 5).2 :=
  network_failure_one_notification ⟨HttpOutcome.raises, okBot⟩ 5 [] rfl

/-- Claim C8: the cursor is a loop invariant: `current_timestamp` is set
once before the loop and never reassigned, so whatever the responses are,
every iteration of `main` issues its fetch with the same `from_date`
value — the trace of issued `from_date`s is the start time repeated once
per iteration. -/
theorem cursor_never_advances (cfg : Config) (startTime : Int)
    (envs : List IterEnv) (h : (check_tokens cfg).1 = true) :
    (main cfg startTime envs).2.fromDates
      = List.replicate envs.length startTime := by
  unfold main
  rw [check_tokens_true_eq cfg h]
  simp [Effects.append_fromDates, main_loop_fromDates, Effects.empty]

/-- Witness for C8: with all secrets set, a two-iteration trace with
different HTTP outcomes issues `from_date = 9` both times. -/
theorem cursor_never_advances_witness :
    (main ⟨some "p", some "t", some "c"⟩ 9
        [⟨HttpOutcome.raises, okBot⟩,
         ⟨HttpOutcome.returns 200 (PyVal.dict [("homeworks", PyVal.list [])]),
          okBot⟩]).2.fromDates
      = List.replicate 2 9 :=
  cursor_never_advances ⟨some "p", some "t", some "c"⟩ 9
    [⟨HttpOutcome.raises, okBot⟩,
     ⟨HttpOutcome.returns 200 (PyVal.dict [("homeworks", PyVal.list [])]),
      okBot⟩] rfl

/-- Claim C9: when any required secret is absent, `main` never enters the
polling loop (no fetch is issued, nothing is sent) and does not terminate
the process: it returns normally — the `else` branch only constructs
`SystemExit()` without raising it. -/
theorem missing_config_skips_loop (cfg : Config) (startTime : Int)
    (envs : List IterEnv) (h : (check_tokens cfg).1 = false) :
    (main cfg startTime envs).1 = Except.ok () ∧
    (main cfg startTime envs).2.fromDates = [] ∧
    (main cfg startTime envs).2.notifyAttempts = [] := by
  unfold main
  rw [check_tokens_false_eq cfg h]
  exact ⟨rfl, rfl, rfl⟩

/-- Witness for C9: with the API token unset, a nonempty iteration trace
is available but `main` returns normally without fetching or sending. -/
theorem missing_config_skips_loop_witness :
    (main ⟨Option.none, some "t", some "c"⟩ 1
        [⟨HttpOutcome.raises, okBot⟩]).1 = Except.ok () ∧
    (main ⟨Option.none, some "t", some "c"⟩ 1
        [⟨HttpOutcome.raises, okBot⟩]).2.fromDates = [] ∧
    (main ⟨Option.none, some "t", some "c"⟩ 1
        [⟨HttpOutcome.raises, okBot⟩]).2.notifyAttempts = [] :=
  missing_config_skips_loop ⟨Option.none, some "t", some "c"⟩ 1
    [⟨HttpOutcome.raises, okBot⟩] rfl

end HomeworkBot
